import Mathlib

/-!
Shallow embedding of the message-relocation workflow of
`src/commands/moving.rs` (ferrisbot-for-discord).

Pure data (enums, the component registry, the dialog state) is translated
directly.  Async platform calls (thread/forum creation, webhook posts,
deletions, modal dialogs) are modelled by explicit environments recording
each call's outcome, and the engine returns the list of outbound actions it
performed together with its `Result`.  Discord snowflake ids are modelled as
`Nat`.
-/

namespace Ferrisbot

abbrev UserId := Nat
abbrev ChannelId := Nat
abbrev MessageId := Nat
abbrev AttachmentUrl := Nat

/-- The `MoveDestinationOption` enum (moving.rs lines 16-26); `Channel` is the
`#[default]` variant. -/
inductive MoveDestinationOption
  | Channel
  | NewThread
  | ExistingThread
  | NewForumPost
deriving DecidableEq

/-- The `MoveOptionComponent` enum (moving.rs lines 66-113), in declaration
order. -/
inductive MoveOptionComponent
  | SelectUsers
  | Destination
  | Forum
  | Thread
  | Channel
  | ExecuteButton
  | ChangeNameButton
deriving DecidableEq

/-- `MoveOptionComponent::needs_to_be_set` (moving.rs lines 116-118):
`matches!(self, Forum | Thread | Channel)`. -/
def MoveOptionComponent.needs_to_be_set : MoveOptionComponent → Bool
  | .Forum => true
  | .Thread => true
  | .Channel => true
  | _ => false

/-- `MoveDestinationOption::components` (moving.rs lines 29-36): the
`#[subenum]` membership of each variant, in the declaration order that
`strum::VariantArray` yields on each subenum. -/
def MoveDestinationOption.components : MoveDestinationOption → List MoveOptionComponent
  | .Channel => [.SelectUsers, .Destination, .Channel, .ExecuteButton]
  | .NewThread => [.SelectUsers, .Destination, .Channel, .ExecuteButton, .ChangeNameButton]
  | .ExistingThread => [.SelectUsers, .Destination, .Thread, .ExecuteButton]
  | .NewForumPost => [.SelectUsers, .Destination, .Forum, .ExecuteButton, .ChangeNameButton]

/-- `MoveDestinationOption::needs_to_be_set` (moving.rs lines 38-45): the
variants of the subenum with `needs_to_be_set()` true, collected into a
`HashSet` (modelled as a `Finset`). -/
def MoveDestinationOption.needs_to_be_set (o : MoveDestinationOption) :
    Finset MoveOptionComponent :=
  (o.components.filter MoveOptionComponent.needs_to_be_set).toFinset

/-- `poise::ChoiceParameter::from_name` for `MoveDestinationOption`: the
`#[name = ...]` attributes on moving.rs lines 17-25 (the default variant keeps
its own name). -/
def MoveDestinationOption.from_name : String → Option MoveDestinationOption
  | "Channel" => some .Channel
  | "New Thread" => some .NewThread
  | "Existing Thread" => some .ExistingThread
  | "New Forum Post" => some .NewForumPost
  | _ => none

/-- The `MoveOptions` enum (moving.rs lines 48-64). -/
inductive MoveOptions
  | NewThread (channel_id : ChannelId) (thread_name : String)
  | ExistingThread (channel_id : ChannelId) (thread_id : ChannelId)
  | Channel (id : ChannelId)
  | NewForumPost (forum_id : ChannelId) (post_name : String)
deriving DecidableEq

/-- The `MoveDestination` enum (moving.rs lines 153-162). -/
inductive MoveDestination
  | Channel (id : ChannelId)
  | Thread (channel : ChannelId) (thread : ChannelId)
      (created_from_first_message : Bool) (delete_on_fail : Bool)
deriving DecidableEq

/-- `MoveDestination::skip_first_message` (moving.rs lines 165-173). -/
def MoveDestination.skip_first_message : MoveDestination → Bool
  | .Channel _ => false
  | .Thread _ _ created_from_first_message _ => created_from_first_message

/-- `MoveDestination::channel` (moving.rs lines 175-179). -/
def MoveDestination.channel : MoveDestination → ChannelId
  | .Channel c => c
  | .Thread c _ _ _ => c

/-- `MoveDestination.thread` (moving.rs lines 181-186). -/
def MoveDestination.thread : MoveDestination → Option ChannelId
  | .Channel _ => none
  | .Thread _ t _ _ => some t

/-- The `delete_on_fail` field read by the rollback code (moving.rs lines
744-750): the `if let Thread { delete_on_fail, .. }` pattern there never
fires for `Channel`, so a `Channel` destination behaves as flag `false`. -/
def MoveDestination.delete_on_fail : MoveDestination → Bool
  | .Channel _ => false
  | .Thread _ _ _ d => d

/-- A `serenity` `Message` restricted to the fields moving.rs reads: id,
author id / display name / avatar, content, embeds, attachment urls, sticker
ids and the originating channel.  Embeds and stickers are carried opaquely. -/
structure Message where
  id : MessageId
  author : UserId
  author_display_name : String
  author_avatar_url : Option String
  content : String
  embeds : List String
  attachments : List AttachmentUrl
  sticker_items : List Nat
  channel_id : ChannelId
deriving DecidableEq

/-- The `MoveOptionsDialog` struct (moving.rs lines 303-315). -/
structure MoveOptionsDialog where
  initial_msg : Message
  destination : MoveDestinationOption
  users : List UserId
  thread_name : String
  selected_users : List UserId
  selected_forum : Option ChannelId
  selected_thread : Option ChannelId
  selected_channel : Option ChannelId
  needs_to_be_set : Finset MoveOptionComponent

/-- `MoveOptionsDialog::update_set_fields` (moving.rs lines 513-520):
`self.needs_to_be_set.retain(|c| match c { Forum => selected_forum.is_some(),
Thread => selected_thread.is_some(), Channel => selected_channel.is_some(),
_ => false })`. -/
def MoveOptionsDialog.update_set_fields (d : MoveOptionsDialog) : MoveOptionsDialog :=
  { d with needs_to_be_set :=
      d.needs_to_be_set.filter fun c =>
        (match c with
          | MoveOptionComponent.Forum => d.selected_forum.isSome
          | MoveOptionComponent.Thread => d.selected_thread.isSome
          | MoveOptionComponent.Channel => d.selected_channel.isSome
          | _ => false) = true }

/-- `MoveOptionsDialog::switch_destination` (moving.rs lines 443-464), state
part only: the returned iterator of rendered action rows (and the coalescing
of adjacent buttons) is a rendering concern with no further state effect. -/
def MoveOptionsDialog.switch_destination (d : MoveOptionsDialog)
    (destination : MoveDestinationOption) : MoveOptionsDialog :=
  MoveOptionsDialog.update_set_fields
    { d with
        destination := destination
        needs_to_be_set := destination.needs_to_be_set
        selected_thread := none }

/-- `MoveOptionsDialog::create` (moving.rs lines 318-356), state part only:
`selected_forum` is the guild's forum channel when there is exactly one
(`at_most_one().ok().flatten()`), the user selection starts as the full
candidate list, and the dialog is rendered via
`switch_destination(default)`. -/
def MoveOptionsDialog.create (initial_msg : Message) (users : List UserId)
    (guild_forums : List ChannelId) : MoveOptionsDialog :=
  let selected_forum := if guild_forums.length = 1 then guild_forums.head? else none
  let d : MoveOptionsDialog :=
    { initial_msg := initial_msg
      thread_name := "Moved conversation"
      destination := MoveDestinationOption.Channel
      selected_users := users
      users := users
      selected_forum := selected_forum
      selected_thread := none
      selected_channel := none
      needs_to_be_set := ∅ }
  d.switch_destination MoveDestinationOption.Channel

/-- The payload variants of `ComponentInteractionDataKind` that moving.rs
inspects. -/
inductive ComponentInteractionDataKind
  | UserSelect (values : List UserId)
  | StringSelect (values : List String)
  | ChannelSelect (values : List ChannelId)
  | Other
deriving DecidableEq

/-- A component interaction: its `custom_id` and data kind. -/
structure ComponentInteraction where
  custom_id : String
  kind : ComponentInteractionDataKind
deriving DecidableEq

/-- `interaction.data.custom_id.parse::<MoveOptionComponent>()`: the
`strum::EnumString` instance derived on moving.rs line 81 matches each
variant's name. -/
def parseMoveOptionComponent : String → Option MoveOptionComponent
  | "SelectUsers" => some .SelectUsers
  | "Destination" => some .Destination
  | "Forum" => some .Forum
  | "Thread" => some .Thread
  | "Channel" => some .Channel
  | "ExecuteButton" => some .ExecuteButton
  | "ChangeNameButton" => some .ChangeNameButton
  | _ => none

/-- `get_selected_channel` (moving.rs lines 786-792). -/
def get_selected_channel (interaction : ComponentInteraction) : Option ChannelId :=
  match interaction.kind with
  | .ChannelSelect values => values.head?
  | _ => none

/-- Outcomes of the platform calls the dialog makes: `to_channel` parent
lookup for an existing thread (`none` models a missing parent or a lookup
failure, both of which moving.rs turns into an error) and the thread-name
modal's submission. -/
structure DialogEnv where
  threadParent : ChannelId → Option ChannelId
  modalResult : Option String

/-- `MoveOptionsDialog::build_move_options` (moving.rs lines 466-511). -/
def MoveOptionsDialog.build_move_options (env : DialogEnv) (d : MoveOptionsDialog) :
    Except String (Option MoveOptions) :=
  if d.needs_to_be_set ≠ ∅ then Except.ok none
  else
    match d.destination with
    | MoveDestinationOption.Channel =>
        match d.selected_channel with
        | some id => Except.ok (some (MoveOptions.Channel id))
        | none => Except.error "No channel specified"
    | MoveDestinationOption.NewThread =>
        match d.selected_channel with
        | some channel_id => Except.ok (some (MoveOptions.NewThread channel_id d.thread_name))
        | none => Except.error "No channel specified"
    | MoveDestinationOption.ExistingThread =>
        match d.selected_thread with
        | some thread_id =>
            match env.threadParent thread_id with
            | some parent_id =>
                Except.ok (some (MoveOptions.ExistingThread parent_id thread_id))
            | none => Except.error "thread channel has no parent"
        | none => Except.error "No thread specified"
    | MoveDestinationOption.NewForumPost =>
        match d.selected_forum with
        | some forum_id => Except.ok (some (MoveOptions.NewForumPost forum_id d.thread_name))
        | none => Except.error "No forum specified"

/-- `MoveOptionsDialog::interaction_received` (moving.rs lines 358-441):
the new dialog state and the returned `Result<Option<MoveOptions>>`.
`defer` and `edit_response` are interface calls with no state effect and are
assumed to succeed; the `ChangeNameButton` modal's submission comes from the
environment. -/
def MoveOptionsDialog.interaction_received (env : DialogEnv) (d : MoveOptionsDialog)
    (interaction : ComponentInteraction) :
    MoveOptionsDialog × Except String (Option MoveOptions) :=
  match parseMoveOptionComponent interaction.custom_id with
  | none => (d, Except.ok none)
  | some component =>
    match component with
    | MoveOptionComponent.SelectUsers =>
        let d' := match interaction.kind with
          | ComponentInteractionDataKind.UserSelect values => { d with users := values }
          | _ => d
        (d'.update_set_fields, Except.ok none)
    | MoveOptionComponent.Destination =>
        (match interaction.kind with
          | ComponentInteractionDataKind.StringSelect values =>
              match values.head?.bind MoveDestinationOption.from_name with
              | none => (d, Except.ok none)
              | some destination =>
                  ((d.switch_destination destination).update_set_fields, Except.ok none)
          | _ => (d.update_set_fields, Except.ok none))
    | MoveOptionComponent.Forum =>
        let d' := { d with selected_forum := get_selected_channel interaction }
        (d'.update_set_fields, Except.ok none)
    | MoveOptionComponent.Thread =>
        let d' := { d with selected_thread := get_selected_channel interaction }
        (d'.update_set_fields, Except.ok none)
    | MoveOptionComponent.Channel =>
        let d' := { d with selected_channel := get_selected_channel interaction }
        (d'.update_set_fields, Except.ok none)
    | MoveOptionComponent.ChangeNameButton =>
        let d' := match env.modalResult with
          | some input => { d with thread_name := input }
          | none => d
        (d'.update_set_fields, Except.ok none)
    | MoveOptionComponent.ExecuteButton => (d, MoveOptionsDialog.build_move_options env d)

/-! ## Destination resolution -/

/-- Outcomes of the platform calls `MoveOptions::get_or_create_channel`
makes: the invoking channel (`ctx.channel_id()`) and the result of each kind
of creation call.  A successful creation yields the id of the new
thread/post; the forum-post case folds the seeding of the post from the
first message's content/embeds/attachments/stickers (and any attachment
fetch failure, which the source propagates with `?`) into its outcome. -/
structure ResolveEnv where
  ctx_channel_id : ChannelId
  create_thread_from_message : Except String ChannelId
  create_thread : Except String ChannelId
  create_forum_post : Except String ChannelId

/-- `MoveOptions::get_or_create_channel` (moving.rs lines 189-286). -/
def MoveOptions.get_or_create_channel (env : ResolveEnv) :
    MoveOptions → Except String MoveDestination
  | .Channel id => Except.ok (MoveDestination.Channel id)
  | .ExistingThread channel_id thread_id =>
      Except.ok (MoveDestination.Thread channel_id thread_id false false)
  | .NewThread channel_id _thread_name =>
      let create_from_first_message := channel_id == env.ctx_channel_id
      match (if create_from_first_message
              then env.create_thread_from_message
              else env.create_thread) with
      | Except.ok thread =>
          Except.ok (MoveDestination.Thread channel_id thread create_from_first_message true)
      | Except.error e => Except.error e
  | .NewForumPost forum_id _post_name =>
      match env.create_forum_post with
      | Except.ok post => Except.ok (MoveDestination.Thread forum_id post true true)
      | Except.error e => Except.error e

/-- The destination kinds that `get_or_create_channel` creates during this
invocation (stated from the claim's wording "newly created by this
invocation (NewThread or NewForumPost)", for comparison with the resolver's
flag). -/
def MoveOptions.requests_new_destination : MoveOptions → Bool
  | .NewThread _ _ => true
  | .NewForumPost _ _ => true
  | _ => false

/-! ## Relay engine

The part of `move_messages` (moving.rs lines 678-783) that runs after the
dialog finished and the destination and webhook exist: filtering the fetched
run, the sequential webhook posts, rollback on abort, and deletion of the
originals.  Every outbound call is recorded as an `Action`. -/

/-- A webhook payload as `move_messages` builds it (moving.rs lines
690-721): username from the author's nick falling back to the display name,
the author's avatar when present, the content and embeds, the attachments
that could be re-fetched, and the destination thread when there is one. -/
structure ProxyPost where
  username : String
  avatar_url : Option String
  content : String
  embeds : List String
  files : List AttachmentUrl
  thread : Option ChannelId
deriving DecidableEq

/-- Outcome of one `webhook.execute(.., true, ..)` call: `Ok(Some(msg))`,
`Ok(None)` or `Err`. -/
inductive PostOutcome
  | success (msg_id : MessageId)
  | none_returned
  | failure
deriving DecidableEq

/-- The outcomes that take the `abort_relaying = true` branches (moving.rs
lines 727-739). -/
def PostOutcome.aborts : PostOutcome → Bool
  | .success _ => false
  | .none_returned => true
  | .failure => true

/-- Outcomes of the platform calls the relay makes: per-author nick lookup,
per-attachment `CreateAttachment::url` success, the outcome of the n-th
webhook post, whether deleting the new thread/post succeeds, and whether
deleting each original message succeeds.  (Deleting a relayed copy during
rollback is attempted regardless of outcome and its failure is only logged,
so no flag is needed for it.) -/
structure RelayEnv where
  nick : UserId → Option String
  attachment_ok : AttachmentUrl → Bool
  post_outcome : Nat → PostOutcome
  delete_thread_ok : Bool
  delete_original_ok : MessageId → Bool

/-- The `ExecuteWebhook` builder for one message (moving.rs lines 690-721):
attachments whose re-fetch fails are skipped with a warning and the message
is still posted with the remaining files. -/
def mkProxyPost (env : RelayEnv) (destination : MoveDestination) (m : Message) : ProxyPost :=
  { username := (env.nick m.author).getD m.author_display_name
    avatar_url := m.author_avatar_url
    content := m.content
    embeds := m.embeds
    files := m.attachments.filter env.attachment_ok
    thread := destination.thread }

/-- The sequential send loop (moving.rs lines 689-740): for each surviving
message in order, build the payload and execute the webhook; on `Ok(Some)`
record the relayed copy and continue, on `Ok(None)` or `Err` set
`abort_relaying` and break.  Returns (payloads attempted in order, ids of
relayed copies in order, abort flag); the counter numbers the posts. -/
def send_loop (env : RelayEnv) (destination : MoveDestination) :
    List Message → Nat → List ProxyPost × List MessageId × Bool
  | [], _ => ([], [], false)
  | m :: rest, i =>
      let p := mkProxyPost env destination m
      match env.post_outcome i with
      | PostOutcome.success msg_id =>
          let r := send_loop env destination rest (i + 1)
          (p :: r.1, msg_id :: r.2.1, r.2.2)
      | PostOutcome.none_returned => ([p], [], true)
      | PostOutcome.failure => ([p], [], true)

/-- One outbound platform call of the relay engine. -/
inductive Action
  | post (p : ProxyPost)
  | delete_thread (t : ChannelId)
  | delete_relayed (id : MessageId)
  | delete_original (id : MessageId)
deriving DecidableEq

def Action.is_post : Action → Bool
  | .post _ => true
  | _ => false

def Action.is_delete_thread : Action → Bool
  | .delete_thread _ => true
  | _ => false

def Action.is_delete_relayed : Action → Bool
  | .delete_relayed _ => true
  | _ => false

def Action.is_delete_original : Action → Bool
  | .delete_original _ => true
  | _ => false

/-- The surviving send order (moving.rs lines 678-683):
`all_messages.into_iter().filter(selected_users contains author).skip(offset)`
with `offset = usize::from(destination.skip_first_message())`.  Note the
skip is applied AFTER the participant filter. -/
def surviving_messages (destination : MoveDestination) (selected_users : List UserId)
    (all_messages : List Message) : List Message :=
  (all_messages.filter fun m => selected_users.contains m.author).drop
    (if destination.skip_first_message then 1 else 0)

/-- The rollback block (moving.rs lines 742-766): when the destination is a
thread with `delete_on_fail`, try to delete the thread and return the error
at once on success; only if that deletion fails (or the destination is not
such a thread) delete each relayed copy.  Relayed-copy delete failures are
only logged, so every copy is attempted. -/
def rollback_actions (env : RelayEnv) (destination : MoveDestination)
    (relayed : List MessageId) : List Action :=
  match destination with
  | MoveDestination.Thread _ thread _ true =>
      if env.delete_thread_ok then [Action.delete_thread thread]
      else Action.delete_thread thread :: relayed.map Action.delete_relayed
  | _ => relayed.map Action.delete_relayed

/-- The original-message cleanup (moving.rs lines 768-774): delete each
surviving original in send order; the first failure returns the error
immediately. -/
def delete_originals (env : RelayEnv) : List Message → List Action × Except String Unit
  | [] => ([], Except.ok ())
  | m :: rest =>
      if env.delete_original_ok m.id then
        let r := delete_originals env rest
        (Action.delete_original m.id :: r.1, r.2)
      else ([Action.delete_original m.id], Except.error "failed to delete original message")

/-- The relay engine: `move_messages` from the filtering through the final
cleanup (moving.rs lines 678-774), returning the outbound actions in order
and the `Result`.  Webhook creation (lines 667-676) precedes this and is
assumed to have succeeded; the closing `ctx.say` summary has no further
state effect. -/
def move_messages_relay (env : RelayEnv) (destination : MoveDestination)
    (all_messages : List Message) (selected_users : List UserId) :
    List Action × Except String Unit :=
  let filtered := surviving_messages destination selected_users all_messages
  let sent := send_loop env destination filtered 0
  let posts := sent.1.map Action.post
  if sent.2.2 then
    (posts ++ rollback_actions env destination sent.2.1, Except.error "failed to move messages")
  else
    let cleanup := delete_originals env filtered
    (posts ++ cleanup.1, cleanup.2)

/-- Modelled from the spec (claim wording, for comparison only): the send
order described by the claim that skip-first drops the leading record of the
FULL source run, independent of the participant filter, before the filter
applies. -/
def claim_surviving_messages (destination : MoveDestination) (selected_users : List UserId)
    (all_messages : List Message) : List Message :=
  (if destination.skip_first_message then all_messages.drop 1 else all_messages).filter
    fun m => selected_users.contains m.author

/-! ## Helper lemmas -/

/-- When every post in range succeeds, the send loop attempts exactly one
post per surviving message, in order, and does not abort. -/
theorem send_loop_all_success (env : RelayEnv) (destination : MoveDestination) :
    ∀ (msgs : List Message) (i : Nat),
      (∀ j, j < msgs.length → (env.post_outcome (i + j)).aborts = false) →
      (send_loop env destination msgs i).1 = msgs.map (mkProxyPost env destination) ∧
        (send_loop env destination msgs i).2.2 = false
  | [], _, _ => by simp [send_loop]
  | m :: rest, i, h => by
      have h0 : (env.post_outcome i).aborts = false := by simpa using h 0 (by simp)
      cases hp : env.post_outcome i with
      | success msg_id =>
          have ih := send_loop_all_success env destination rest (i + 1) (fun j hj => by
            have := h (j + 1) (by simpa using Nat.succ_lt_succ hj)
            have e : i + (j + 1) = i + 1 + j := by omega
            rwa [e] at this)
          simp [send_loop, hp, ih.1, ih.2]
      | none_returned => simp [hp, PostOutcome.aborts] at h0
      | failure => simp [hp, PostOutcome.aborts] at h0

/-- The relayed-copy ids and the abort flag depend only on the post
outcomes, not on attachment fetches, nicks or any other part of the
environment. -/
theorem send_loop_snd_congr (env env' : RelayEnv) (destination : MoveDestination)
    (hpost : env'.post_outcome = env.post_outcome) :
    ∀ (msgs : List Message) (i : Nat),
      (send_loop env' destination msgs i).2 = (send_loop env destination msgs i).2
  | [], _ => rfl
  | m :: rest, i => by
      have ih := send_loop_snd_congr env env' destination hpost rest (i + 1)
      simp only [send_loop, hpost]
      cases env.post_outcome i <;> simp [ih]

/-- When every surviving original deletes cleanly, the cleanup deletes each
one, in order, and returns success. -/
theorem delete_originals_all_ok (env : RelayEnv) :
    ∀ l : List Message, (∀ m ∈ l, env.delete_original_ok m.id = true) →
      delete_originals env l
        = (l.map fun m => Action.delete_original m.id, Except.ok ())
  | [], _ => by simp [delete_originals]
  | m :: rest, h => by
      have hm : env.delete_original_ok m.id = true := h m (by simp)
      have ih := delete_originals_all_ok env rest (fun x hx => h x (by simp [hx]))
      simp [delete_originals, hm, ih]

/-- Every action the cleanup performs is an original-message deletion. -/
theorem delete_originals_actions (env : RelayEnv) :
    ∀ l : List Message, ∀ a ∈ (delete_originals env l).1, a.is_delete_original = true
  | [], a, ha => by simp [delete_originals] at ha
  | m :: rest, a, ha => by
      by_cases hm : env.delete_original_ok m.id = true
      · simp only [delete_originals, hm, if_true] at ha
        rcases List.mem_cons.mp ha with h | h
        · subst h; rfl
        · exact delete_originals_actions env rest a h
      · simp only [delete_originals, hm, if_false, Bool.false_eq_true] at ha
        simp only [List.mem_singleton] at ha
        subst ha; rfl

/-- If some surviving original fails to delete, the cleanup returns the
error. -/
theorem delete_originals_fail (env : RelayEnv) :
    ∀ l : List Message, (∃ m ∈ l, env.delete_original_ok m.id = false) →
      (delete_originals env l).2 = Except.error "failed to delete original message"
  | [], h => by simp at h
  | m :: rest, h => by
      by_cases hm : env.delete_original_ok m.id = true
      · rcases h with ⟨x, hx, hxf⟩
        rcases List.mem_cons.mp hx with rfl | hx'
        · rw [hm] at hxf; cases hxf
        · have ih := delete_originals_fail env rest ⟨x, hx', hxf⟩
          simp [delete_originals, hm, ih]
      · simp [delete_originals, hm]

/-- On abort, the engine's trace is the attempted posts followed by the
rollback actions, and the result is the error. -/
theorem relay_abort_eq (env : RelayEnv) (destination : MoveDestination)
    (all_messages : List Message) (selected_users : List UserId)
    (h : (send_loop env destination
        (surviving_messages destination selected_users all_messages) 0).2.2 = true) :
    move_messages_relay env destination all_messages selected_users
      = ((send_loop env destination
            (surviving_messages destination selected_users all_messages) 0).1.map Action.post
          ++ rollback_actions env destination
              (send_loop env destination
                (surviving_messages destination selected_users all_messages) 0).2.1,
         Except.error "failed to move messages") := by
  simp [move_messages_relay, h]

/-- Without abort, the engine's trace is the posts followed by the cleanup,
and the result is the cleanup's. -/
theorem relay_noabort_eq (env : RelayEnv) (destination : MoveDestination)
    (all_messages : List Message) (selected_users : List UserId)
    (h : (send_loop env destination
        (surviving_messages destination selected_users all_messages) 0).2.2 = false) :
    move_messages_relay env destination all_messages selected_users
      = ((send_loop env destination
            (surviving_messages destination selected_users all_messages) 0).1.map Action.post
          ++ (delete_originals env
              (surviving_messages destination selected_users all_messages)).1,
         (delete_originals env
            (surviving_messages destination selected_users all_messages)).2) := by
  simp [move_messages_relay, h]

/-! ## Concrete instances used by witnesses and counterexamples -/

/-- A minimal message for concrete instances. -/
def sampleMsg (i : MessageId) (u : UserId) : Message :=
  { id := i, author := u, author_display_name := "user", author_avatar_url := none,
    content := "hello", embeds := [], attachments := [], sticker_items := [],
    channel_id := 1 }

/-- A message carrying one attachment. -/
def msgWithAttachment : Message :=
  { sampleMsg 12 7 with attachments := [5] }

/-- A resolver environment: invocation from channel 1, every creation call
succeeding. -/
def sampleResolveEnv : ResolveEnv :=
  { ctx_channel_id := 1
    create_thread_from_message := Except.ok 8
    create_thread := Except.ok 8
    create_forum_post := Except.ok 9 }

/-- A relay environment in which every webhook post fails. -/
def failingPostEnv : RelayEnv :=
  { nick := fun _ => none
    attachment_ok := fun _ => true
    post_outcome := fun _ => PostOutcome.failure
    delete_thread_ok := true
    delete_original_ok := fun _ => true }

/-- A relay environment in which every call succeeds. -/
def allSuccessEnv : RelayEnv :=
  { failingPostEnv with post_outcome := fun _ => PostOutcome.success 100 }

/-- Like `allSuccessEnv` but every attachment re-fetch fails. -/
def attachFailEnv : RelayEnv :=
  { allSuccessEnv with attachment_ok := fun _ => false }

/-- A dialog environment with no resolvable thread parent and no modal
submission. -/
def sampleDialogEnv : DialogEnv := { threadParent := fun _ => none, modalResult := none }

/-! ## C5 -/

/-- C5, corrected: for a destination the resolver produced, the skip-first
flag is true exactly when the request was a NewThread whose parent is the
invoking container OR a NewForumPost; the claim's assertion that a
NewForumPost with a non-matching parent gets skip-first = false fails (see
the counterexample). -/
theorem skip_first_characterization (env : ResolveEnv) (o : MoveOptions)
    (dest : MoveDestination)
    (h : MoveOptions.get_or_create_channel env o = Except.ok dest) :
    dest.skip_first_message = true ↔
      ((∃ thread_name, o = MoveOptions.NewThread env.ctx_channel_id thread_name) ∨
        ∃ forum_id post_name, o = MoveOptions.NewForumPost forum_id post_name) := by
  cases o with
  | Channel id =>
      simp only [MoveOptions.get_or_create_channel, Except.ok.injEq] at h
      subst h
      simp [MoveDestination.skip_first_message]
  | ExistingThread c t =>
      simp only [MoveOptions.get_or_create_channel, Except.ok.injEq] at h
      subst h
      simp [MoveDestination.skip_first_message]
  | NewThread c thread_name =>
      cases hb : (c == env.ctx_channel_id) with
      | true =>
          have hc : c = env.ctx_channel_id := by simpa using hb
          cases hcr : env.create_thread_from_message with
          | ok t =>
              simp only [MoveOptions.get_or_create_channel, hb, if_true, hcr,
                Except.ok.injEq] at h
              subst h
              constructor
              · intro _
                exact Or.inl ⟨thread_name, by rw [hc]⟩
              · intro _
                rfl
          | error e =>
              simp [MoveOptions.get_or_create_channel, hb, hcr] at h
      | false =>
          have hc : ¬c = env.ctx_channel_id := by simpa using hb
          cases hcr : env.create_thread with
          | ok t =>
              simp only [MoveOptions.get_or_create_channel, hb, Bool.false_eq_true,
                if_false, hcr, Except.ok.injEq] at h
              subst h
              constructor
              · intro hfalse
                cases hfalse
              · rintro (⟨n, hn⟩ | ⟨f, n, hn⟩)
                · cases hn
                  exact absurd rfl hc
                · cases hn
          | error e =>
              simp [MoveOptions.get_or_create_channel, hb, hcr] at h
  | NewForumPost f n =>
      cases hcr : env.create_forum_post with
      | ok post =>
          simp only [MoveOptions.get_or_create_channel, hcr, Except.ok.injEq] at h
          subst h
          constructor
          · intro _
            exact Or.inr ⟨f, n, rfl⟩
          · intro _
            rfl
      | error e =>
          simp [MoveOptions.get_or_create_channel, hcr] at h

/-- Witness for C5's amended theorem: a NewThread whose parent is the
invoking channel resolves with skip-first = true. -/
theorem skip_first_characterization_witness :
    (MoveDestination.Thread 1 8 true true).skip_first_message = true ↔
      ((∃ thread_name,
          MoveOptions.NewThread 1 "t"
            = MoveOptions.NewThread sampleResolveEnv.ctx_channel_id thread_name) ∨
        ∃ forum_id post_name,
          MoveOptions.NewThread 1 "t" = MoveOptions.NewForumPost forum_id post_name) :=
  skip_first_characterization sampleResolveEnv (MoveOptions.NewThread 1 "t")
    (MoveDestination.Thread 1 8 true true) rfl

/-- Counterexample to C5 as stated: a NewForumPost whose forum (5) differs
from the invoking container (1) resolves with skip-first = true, not
false. -/
theorem skip_first_new_forum_post_counterexample :
    MoveOptions.get_or_create_channel sampleResolveEnv (MoveOptions.NewForumPost 5 "p")
        = Except.ok (MoveDestination.Thread 5 9 true true) ∧
      sampleResolveEnv.ctx_channel_id ≠ 5 ∧
      (MoveDestination.Thread 5 9 true true).skip_first_message ≠ false :=
  ⟨rfl, by decide, by decide⟩

/-! ## C6 -/

/-- C6, confirmed: a resolved destination's delete-on-rollback flag is true
iff the request newly created the destination (NewThread or NewForumPost);
for pre-existing destinations (ExistingChannel, ExistingThread) it is
false. -/
theorem delete_on_fail_iff_new (env : ResolveEnv) (o : MoveOptions)
    (dest : MoveDestination)
    (h : MoveOptions.get_or_create_channel env o = Except.ok dest) :
    dest.delete_on_fail = MoveOptions.requests_new_destination o := by
  cases o with
  | Channel id =>
      simp only [MoveOptions.get_or_create_channel, Except.ok.injEq] at h
      subst h
      rfl
  | ExistingThread c t =>
      simp only [MoveOptions.get_or_create_channel, Except.ok.injEq] at h
      subst h
      rfl
  | NewThread c thread_name =>
      cases hb : (c == env.ctx_channel_id) with
      | true =>
          cases hcr : env.create_thread_from_message with
          | ok t =>
              simp only [MoveOptions.get_or_create_channel, hb, if_true, hcr,
                Except.ok.injEq] at h
              subst h
              rfl
          | error e =>
              simp [MoveOptions.get_or_create_channel, hb, hcr] at h
      | false =>
          cases hcr : env.create_thread with
          | ok t =>
              simp only [MoveOptions.get_or_create_channel, hb, Bool.false_eq_true,
                if_false, hcr, Except.ok.injEq] at h
              subst h
              rfl
          | error e =>
              simp [MoveOptions.get_or_create_channel, hb, hcr] at h
  | NewForumPost f n =>
      cases hcr : env.create_forum_post with
      | ok post =>
          simp only [MoveOptions.get_or_create_channel, hcr, Except.ok.injEq] at h
          subst h
          rfl
      | error e =>
          simp [MoveOptions.get_or_create_channel, hcr] at h

/-- Witness for C6: the NewForumPost request resolves with
delete-on-rollback = true. -/
theorem delete_on_fail_iff_new_witness :
    (MoveDestination.Thread 5 9 true true).delete_on_fail
      = MoveOptions.requests_new_destination (MoveOptions.NewForumPost 5 "p") :=
  delete_on_fail_iff_new sampleResolveEnv (MoveOptions.NewForumPost 5 "p")
    (MoveDestination.Thread 5 9 true true) rfl

/-! ## C3 -/

/-- Every rollback action is a thread deletion or a relayed-copy deletion;
never an original-message deletion or a post. -/
theorem rollback_actions_kinds (env : RelayEnv) (destination : MoveDestination)
    (relayed : List MessageId) :
    ∀ a ∈ rollback_actions env destination relayed,
      a.is_delete_original = false ∧ a.is_post = false := by
  intro a ha
  cases destination with
  | Channel c =>
      simp only [rollback_actions, List.mem_map] at ha
      obtain ⟨id, _, rfl⟩ := ha
      exact ⟨rfl, rfl⟩
  | Thread c t f d =>
      cases d with
      | false =>
          simp only [rollback_actions, List.mem_map] at ha
          obtain ⟨id, _, rfl⟩ := ha
          exact ⟨rfl, rfl⟩
      | true =>
          cases ht : env.delete_thread_ok with
          | true =>
              simp only [rollback_actions, ht, if_true, List.mem_singleton] at ha
              subst ha
              exact ⟨rfl, rfl⟩
          | false =>
              simp only [rollback_actions, ht, Bool.false_eq_true, if_false,
                List.mem_cons] at ha
              rcases ha with rfl | ha
              · exact ⟨rfl, rfl⟩
              · simp only [List.mem_map] at ha
                obtain ⟨id, _, rfl⟩ := ha
                exact ⟨rfl, rfl⟩

/-- C3, confirmed: if a proxy-post fails mid-relay, the engine reports the
error and deletes no original; when the destination carries
delete-on-rollback it attempts to delete the created thread/post, deleting
the relayed copies only when that deletion itself fails; for a pre-existing
destination it deletes only the relayed copies. -/
theorem relay_abort_rollback (env : RelayEnv) (destination : MoveDestination)
    (all_messages : List Message) (selected_users : List UserId)
    (h : (send_loop env destination
        (surviving_messages destination selected_users all_messages) 0).2.2 = true) :
    (move_messages_relay env destination all_messages selected_users).2
        = Except.error "failed to move messages" ∧
    (∀ a ∈ (move_messages_relay env destination all_messages selected_users).1,
        a.is_delete_original = false) ∧
    (∀ c t f, destination = MoveDestination.Thread c t f true →
        Action.delete_thread t
            ∈ (move_messages_relay env destination all_messages selected_users).1 ∧
        (env.delete_thread_ok = true →
          ∀ a ∈ (move_messages_relay env destination all_messages selected_users).1,
            a.is_delete_relayed = false) ∧
        (env.delete_thread_ok = false →
          ∀ id ∈ (send_loop env destination
              (surviving_messages destination selected_users all_messages) 0).2.1,
            Action.delete_relayed id
              ∈ (move_messages_relay env destination all_messages selected_users).1)) ∧
    (destination.delete_on_fail = false →
        (∀ a ∈ (move_messages_relay env destination all_messages selected_users).1,
            a.is_delete_thread = false) ∧
        ∀ id ∈ (send_loop env destination
            (surviving_messages destination selected_users all_messages) 0).2.1,
          Action.delete_relayed id
            ∈ (move_messages_relay env destination all_messages selected_users).1) := by
  rw [relay_abort_eq env destination all_messages selected_users h]
  refine ⟨rfl, ?_, ?_, ?_⟩
  · intro a ha
    rcases List.mem_append.mp ha with hp | hr
    · obtain ⟨p, _, rfl⟩ := List.mem_map.mp hp
      rfl
    · exact (rollback_actions_kinds env destination _ a hr).1
  · rintro c t f rfl
    refine ⟨?_, ?_, ?_⟩
    · apply List.mem_append_right
      cases ht : env.delete_thread_ok with
      | true => simp [rollback_actions, ht]
      | false => simp [rollback_actions, ht]
    · intro ht a ha
      rcases List.mem_append.mp ha with hp | hr
      · obtain ⟨p, _, rfl⟩ := List.mem_map.mp hp
        rfl
      · simp only [rollback_actions, ht, if_true, List.mem_singleton] at hr
        subst hr
        rfl
    · intro ht id hid
      apply List.mem_append_right
      simp only [rollback_actions, ht, Bool.false_eq_true, if_false, List.mem_cons]
      exact Or.inr (List.mem_map.mpr ⟨id, hid, rfl⟩)
  · intro hflag
    constructor
    · intro a ha
      rcases List.mem_append.mp ha with hp | hr
      · obtain ⟨p, _, rfl⟩ := List.mem_map.mp hp
        rfl
      · cases destination with
        | Channel c =>
            simp only [rollback_actions, List.mem_map] at hr
            obtain ⟨id, _, rfl⟩ := hr
            rfl
        | Thread c t f d =>
            cases d with
            | false =>
                simp only [rollback_actions, List.mem_map] at hr
                obtain ⟨id, _, rfl⟩ := hr
                rfl
            | true => simp [MoveDestination.delete_on_fail] at hflag
    · intro id hid
      apply List.mem_append_right
      cases destination with
      | Channel c =>
          simp only [rollback_actions, List.mem_map]
          exact ⟨id, hid, rfl⟩
      | Thread c t f d =>
          cases d with
          | false =>
              simp only [rollback_actions, List.mem_map]
              exact ⟨id, hid, rfl⟩
          | true => simp [MoveDestination.delete_on_fail] at hflag

/-- Witness for C3: with every post failing against a newly created thread
whose deletion succeeds, the engine reports failure. -/
theorem relay_abort_rollback_witness :
    (send_loop failingPostEnv (MoveDestination.Thread 1 2 false true)
        (surviving_messages (MoveDestination.Thread 1 2 false true) [7] [sampleMsg 10 7])
        0).2.2 = true ∧
    (move_messages_relay failingPostEnv (MoveDestination.Thread 1 2 false true)
        [sampleMsg 10 7] [7]).2 = Except.error "failed to move messages" :=
  ⟨rfl, (relay_abort_rollback failingPostEnv (MoveDestination.Thread 1 2 false true)
    [sampleMsg 10 7] [7] rfl).1⟩

/-! ## C4 -/

/-- Filtering keeps a whole list when the predicate holds everywhere. -/
theorem filter_all_true {α : Type} (p : α → Bool) :
    ∀ l : List α, (∀ a ∈ l, p a = true) → l.filter p = l
  | [], _ => rfl
  | a :: l, h => by
      have ha := h a (by simp)
      have ih := filter_all_true p l (fun x hx => h x (by simp [hx]))
      simp [List.filter, ha, ih]

/-- Filtering drops a whole list when the predicate fails everywhere. -/
theorem filter_all_false {α : Type} (p : α → Bool) :
    ∀ l : List α, (∀ a ∈ l, p a = false) → l.filter p = []
  | [], _ => rfl
  | a :: l, h => by
      have ha := h a (by simp)
      have ih := filter_all_false p l (fun x hx => h x (by simp [hx]))
      simp [List.filter, ha, ih]

/-- C4, confirmed: when every post succeeds, the sequence of proxy-post
payloads is exactly the surviving source run, oldest first, one payload per
message — stable filtering, no reordering, no duplication; with no
skip-first it is exactly the participant-filtered run. -/
theorem relay_posts_in_order (env : RelayEnv) (destination : MoveDestination)
    (all_messages : List Message) (selected_users : List UserId)
    (h : ∀ j, j < (surviving_messages destination selected_users all_messages).length →
        (env.post_outcome j).aborts = false) :
    (send_loop env destination
        (surviving_messages destination selected_users all_messages) 0).1
      = (surviving_messages destination selected_users all_messages).map
          (mkProxyPost env destination) ∧
    (move_messages_relay env destination all_messages selected_users).1.filter
        Action.is_post
      = (surviving_messages destination selected_users all_messages).map
          (fun m => Action.post (mkProxyPost env destination m)) ∧
    (destination.skip_first_message = false →
      (send_loop env destination
          (surviving_messages destination selected_users all_messages) 0).1
        = (all_messages.filter fun m => selected_users.contains m.author).map
            (mkProxyPost env destination)) := by
  have hs := send_loop_all_success env destination
    (surviving_messages destination selected_users all_messages) 0
    (fun j hj => by simpa using h j hj)
  refine ⟨hs.1, ?_, ?_⟩
  · rw [relay_noabort_eq env destination all_messages selected_users hs.2]
    simp only
    rw [List.filter_append]
    rw [filter_all_true Action.is_post _ (by
      intro a ha
      obtain ⟨p, _, rfl⟩ := List.mem_map.mp ha
      rfl)]
    rw [filter_all_false Action.is_post _ (by
      intro a ha
      have := delete_originals_actions env
        (surviving_messages destination selected_users all_messages) a ha
      cases a with
      | delete_original id => rfl
      | post p => simp [Action.is_delete_original] at this
      | delete_thread t => simp [Action.is_delete_original] at this
      | delete_relayed id => simp [Action.is_delete_original] at this)]
    rw [List.append_nil, hs.1, List.map_map]
    rfl
  · intro hskip
    rw [hs.1]
    simp [surviving_messages, hskip]

/-- Witness for C4: two surviving messages are posted in source order. -/
theorem relay_posts_in_order_witness :
    (send_loop allSuccessEnv (MoveDestination.Channel 9)
        (surviving_messages (MoveDestination.Channel 9) [7, 8]
          [sampleMsg 10 7, sampleMsg 11 8]) 0).1
      = (surviving_messages (MoveDestination.Channel 9) [7, 8]
          [sampleMsg 10 7, sampleMsg 11 8]).map
          (mkProxyPost allSuccessEnv (MoveDestination.Channel 9)) :=
  (relay_posts_in_order allSuccessEnv (MoveDestination.Channel 9)
    [sampleMsg 10 7, sampleMsg 11 8] [7, 8] (fun _ _ => rfl)).1

/-! ## C8 -/

/-- C8, confirmed: once every proxy-post succeeded, the engine attempts to
delete each surviving original in order — all of them when every deletion
succeeds, with overall success — and if one deletion fails it reports the
fatal error; in neither case does any rollback action (thread delete or
relayed-copy delete) appear in the trace. -/
theorem relay_success_cleanup (env : RelayEnv) (destination : MoveDestination)
    (all_messages : List Message) (selected_users : List UserId)
    (h : (send_loop env destination
        (surviving_messages destination selected_users all_messages) 0).2.2 = false) :
    (∀ a ∈ (move_messages_relay env destination all_messages selected_users).1,
        a.is_delete_thread = false ∧ a.is_delete_relayed = false) ∧
    ((∀ m ∈ surviving_messages destination selected_users all_messages,
        env.delete_original_ok m.id = true) →
      (move_messages_relay env destination all_messages selected_users).1.filter
          Action.is_delete_original
        = (surviving_messages destination selected_users all_messages).map
            (fun m => Action.delete_original m.id) ∧
      (move_messages_relay env destination all_messages selected_users).2
        = Except.ok ()) ∧
    ((∃ m ∈ surviving_messages destination selected_users all_messages,
        env.delete_original_ok m.id = false) →
      (move_messages_relay env destination all_messages selected_users).2
        = Except.error "failed to delete original message") := by
  rw [relay_noabort_eq env destination all_messages selected_users h]
  refine ⟨?_, ?_, ?_⟩
  · intro a ha
    rcases List.mem_append.mp ha with hp | hc
    · obtain ⟨p, _, rfl⟩ := List.mem_map.mp hp
      exact ⟨rfl, rfl⟩
    · have := delete_originals_actions env
        (surviving_messages destination selected_users all_messages) a hc
      cases a with
      | delete_original id => exact ⟨rfl, rfl⟩
      | post p => simp [Action.is_delete_original] at this
      | delete_thread t => simp [Action.is_delete_original] at this
      | delete_relayed id => simp [Action.is_delete_original] at this
  · intro hok
    rw [delete_originals_all_ok env
      (surviving_messages destination selected_users all_messages) hok]
    refine ⟨?_, rfl⟩
    simp only
    rw [List.filter_append]
    rw [filter_all_false Action.is_delete_original _ (by
      intro a ha
      obtain ⟨p, _, rfl⟩ := List.mem_map.mp ha
      rfl)]
    rw [filter_all_true Action.is_delete_original _ (by
      intro a ha
      obtain ⟨m, _, rfl⟩ := List.mem_map.mp ha
      rfl)]
    rfl
  · intro hfail
    exact delete_originals_fail env
      (surviving_messages destination selected_users all_messages) hfail

/-- Witness for C8: with every call succeeding, both surviving originals
are deleted and the engine reports success. -/
theorem relay_success_cleanup_witness :
    (move_messages_relay allSuccessEnv (MoveDestination.Channel 9)
        [sampleMsg 10 7, sampleMsg 11 8] [7, 8]).2 = Except.ok () :=
  ((relay_success_cleanup allSuccessEnv (MoveDestination.Channel 9)
      [sampleMsg 10 7, sampleMsg 11 8] [7, 8] rfl).2.1 (fun _ _ => rfl)).2

/-! ## C9 -/

/-- C9, corrected: with skip-first set, the engine drops the leading record
of the PARTICIPANT-FILTERED run (the code filters first, then skips), and
when every post succeeds the posted payloads are exactly that
filter-then-drop sequence; the surviving run is a sublist of the source run,
so chronological order is preserved. -/
theorem skip_first_drops_filtered_head (env : RelayEnv) (destination : MoveDestination)
    (all_messages : List Message) (selected_users : List UserId)
    (hskip : destination.skip_first_message = true)
    (h : ∀ j, j < (surviving_messages destination selected_users all_messages).length →
        (env.post_outcome j).aborts = false) :
    (send_loop env destination
        (surviving_messages destination selected_users all_messages) 0).1
      = ((all_messages.filter fun m => selected_users.contains m.author).drop 1).map
          (mkProxyPost env destination) ∧
    List.Sublist (surviving_messages destination selected_users all_messages)
      all_messages := by
  have hs := send_loop_all_success env destination
    (surviving_messages destination selected_users all_messages) 0
    (fun j hj => by simpa using h j hj)
  constructor
  · rw [hs.1]
    simp [surviving_messages, hskip]
  · have h1 : List.Sublist (surviving_messages destination selected_users all_messages)
        (all_messages.filter fun m => selected_users.contains m.author) := by
      simp only [surviving_messages]
      exact List.drop_sublist _ _
    exact h1.trans (List.filter_sublist _)

/-- Witness for C9's amended theorem: filtering away the author of the run's
first message and then skipping drops the first FILTERED message, leaving
nothing to post. -/
theorem skip_first_drops_filtered_head_witness :
    (send_loop allSuccessEnv (MoveDestination.Thread 1 2 true true)
        (surviving_messages (MoveDestination.Thread 1 2 true true) [1]
          [sampleMsg 10 0, sampleMsg 11 1]) 0).1
      = (([sampleMsg 10 0, sampleMsg 11 1].filter
            fun m => List.contains [1] m.author).drop 1).map
          (mkProxyPost allSuccessEnv (MoveDestination.Thread 1 2 true true)) :=
  (skip_first_drops_filtered_head allSuccessEnv (MoveDestination.Thread 1 2 true true)
    [sampleMsg 10 0, sampleMsg 11 1] [1] rfl (fun _ _ => rfl)).1

/-- Counterexample to C9 as stated: with run [msg by user 0, msg by user 1],
filter {1} and skip-first set, the code's surviving sequence is empty, while
dropping the leading record of the full run and then filtering (the claim's
reading) would leave the second message; the dropped record thus depends on
the participant filter. -/
theorem skip_after_filter_counterexample :
    surviving_messages (MoveDestination.Thread 1 2 true true) [1]
        [sampleMsg 10 0, sampleMsg 11 1] = [] ∧
    claim_surviving_messages (MoveDestination.Thread 1 2 true true) [1]
        [sampleMsg 10 0, sampleMsg 11 1] = [sampleMsg 11 1] ∧
    surviving_messages (MoveDestination.Thread 1 2 true true) [1]
        [sampleMsg 10 0, sampleMsg 11 1]
      ≠ claim_surviving_messages (MoveDestination.Thread 1 2 true true) [1]
        [sampleMsg 10 0, sampleMsg 11 1] :=
  ⟨rfl, rfl, by decide⟩

/-! ## C10 -/

/-- C10, confirmed: an attachment whose re-fetch fails is dropped from the
payload while the message is still posted (the files are exactly the
attachments whose fetch succeeded); the relayed ids and the abort flag
depend only on the post outcomes, and when no post fails there is no abort —
so only a failed post (or one returning no message), never an attachment
failure, triggers abort. -/
theorem attachment_failure_does_not_abort (env env' : RelayEnv)
    (destination : MoveDestination) (m : Message) (msgs : List Message)
    (hpost : env'.post_outcome = env.post_outcome)
    (hsucc : ∀ j, j < msgs.length → (env.post_outcome j).aborts = false) :
    (mkProxyPost env destination m).files = m.attachments.filter env.attachment_ok ∧
    (send_loop env' destination msgs 0).2 = (send_loop env destination msgs 0).2 ∧
    (send_loop env destination msgs 0).2.2 = false :=
  ⟨rfl, send_loop_snd_congr env env' destination hpost msgs 0,
    (send_loop_all_success env destination msgs 0
      (fun j hj => by simpa using hsucc j hj)).2⟩

/-- Witness for C10: with every attachment fetch failing but every post
succeeding, the payload simply has no files, the outcome trace matches the
all-fetches-succeed environment, and nothing aborts. -/
theorem attachment_failure_does_not_abort_witness :
    (mkProxyPost attachFailEnv (MoveDestination.Channel 9) msgWithAttachment).files
        = [] ∧
    (send_loop allSuccessEnv (MoveDestination.Channel 9) [msgWithAttachment] 0).2
        = (send_loop attachFailEnv (MoveDestination.Channel 9) [msgWithAttachment] 0).2 ∧
    (send_loop attachFailEnv (MoveDestination.Channel 9) [msgWithAttachment] 0).2.2
        = false :=
  attachment_failure_does_not_abort attachFailEnv allSuccessEnv
    (MoveDestination.Channel 9) msgWithAttachment [msgWithAttachment] rfl
    (fun _ _ => rfl)

/-! ## C1 -/

/-- C1, code bug at the failing input: a dialog created with candidates
[1, 2] receives a participant-filter interaction submitting [1]; the handler
assigns the submitted set to the candidate-list field `users` and leaves
`selected_users` — the field the relay filter reads — unchanged, so a
message by the deselected user 2 still survives the relay filter. -/
theorem select_users_leaves_filter_unchanged :
    (MoveOptionsDialog.interaction_received sampleDialogEnv
        (MoveOptionsDialog.create (sampleMsg 0 1) [1, 2] [])
        ⟨"SelectUsers", ComponentInteractionDataKind.UserSelect [1]⟩).1.selected_users
        = [1, 2] ∧
    (MoveOptionsDialog.interaction_received sampleDialogEnv
        (MoveOptionsDialog.create (sampleMsg 0 1) [1, 2] [])
        ⟨"SelectUsers", ComponentInteractionDataKind.UserSelect [1]⟩).1.users = [1] ∧
    (MoveOptionsDialog.interaction_received sampleDialogEnv
        (MoveOptionsDialog.create (sampleMsg 0 1) [1, 2] [])
        ⟨"SelectUsers", ComponentInteractionDataKind.UserSelect [1]⟩).1.selected_users
        ≠ [1] ∧
    surviving_messages (MoveDestination.Channel 9)
        (MoveOptionsDialog.interaction_received sampleDialogEnv
          (MoveOptionsDialog.create (sampleMsg 0 1) [1, 2] [])
          ⟨"SelectUsers", ComponentInteractionDataKind.UserSelect [1]⟩).1.selected_users
        [sampleMsg 10 2]
      = [sampleMsg 10 2] :=
  ⟨rfl, rfl, by decide, rfl⟩

/-! ## C2 -/

/-- A dialog created in a guild with the single forum 5 and switched to the
NewForumPost destination; its required-set holds Forum (retained because a
forum IS selected). -/
def dialogOnNewForumPost : MoveOptionsDialog :=
  (MoveOptionsDialog.interaction_received sampleDialogEnv
      (MoveOptionsDialog.create (sampleMsg 0 1) [1] [5])
      ⟨"Destination", ComponentInteractionDataKind.StringSelect ["New Forum Post"]⟩).1

/-- The same dialog after the user concretely chooses forum 7. -/
def dialogAfterForumChosen : MoveOptionsDialog :=
  (MoveOptionsDialog.interaction_received sampleDialogEnv dialogOnNewForumPost
      ⟨"Forum", ComponentInteractionDataKind.ChannelSelect [7]⟩).1

/-- C2, code bug at the failing input: choosing a forum id stores the id but
leaves Forum in the required-set (`update_set_fields` RETAINS a component
exactly when its value is set), so the required-set does not shrink and a
subsequent execute interaction is still blocked (returns no MoveOptions). -/
theorem forum_chosen_keeps_required_set :
    dialogOnNewForumPost.needs_to_be_set = {MoveOptionComponent.Forum} ∧
    dialogAfterForumChosen.selected_forum = some 7 ∧
    dialogAfterForumChosen.needs_to_be_set = {MoveOptionComponent.Forum} ∧
    (MoveOptionsDialog.interaction_received sampleDialogEnv dialogAfterForumChosen
        ⟨"ExecuteButton", ComponentInteractionDataKind.Other⟩).2 = Except.ok none :=
  ⟨by decide, rfl, by decide, rfl⟩

/-! ## C7 -/

/-- A reachable dialog with a chosen thread id: created with destination
Channel, switched to ExistingThread, then thread 3 selected. -/
def dialogWithThreadChosen : MoveOptionsDialog :=
  (MoveOptionsDialog.interaction_received sampleDialogEnv
      (MoveOptionsDialog.interaction_received sampleDialogEnv
          (MoveOptionsDialog.create (sampleMsg 0 1) [1] [])
          ⟨"Destination", ComponentInteractionDataKind.StringSelect ["Existing Thread"]⟩).1
      ⟨"Thread", ComponentInteractionDataKind.ChannelSelect [3]⟩).1

/-- C7, code bug at the failing input: switching the destination to
NewThread clears the chosen thread id as claimed, but the required-set ends
up empty instead of the registry-declared requirements of NewThread
(that is, the Channel component), because `update_set_fields` drops every
declared component whose value is not yet set. -/
theorem switch_destination_required_set_not_reset :
    (dialogWithThreadChosen.switch_destination
        MoveDestinationOption.NewThread).selected_thread = none ∧
    MoveDestinationOption.needs_to_be_set MoveDestinationOption.NewThread
        = {MoveOptionComponent.Channel} ∧
    (dialogWithThreadChosen.switch_destination
        MoveDestinationOption.NewThread).needs_to_be_set = ∅ ∧
    (dialogWithThreadChosen.switch_destination
        MoveDestinationOption.NewThread).needs_to_be_set
      ≠ MoveDestinationOption.needs_to_be_set MoveDestinationOption.NewThread :=
  ⟨rfl, by decide, by decide, by decide⟩

end Ferrisbot
